import Mathlib

/-!
Shallow embedding of the since-bot activity-chart renderer.

The embedded code is the `ActivityChart` type and its methods
(`Render`, `layout`, `drawBackground`, `drawTitle`, `drawDots`,
`drawXAxis`, `drawYAxis`, `getChartAreaDim`, `getDotColor`) from the
repository's main Go package.

Conventions of the embedding:
  * Go `int` becomes `Int`.  Go division and remainder truncate toward
    zero, so they become `Int.tdiv` / `Int.tmod`.
  * `DPI` is `float64` in Go but every value the program uses for it is
    integral (the go-chart default is 92.0) and the only arithmetic done
    on it is the truncating cast `int(dpi)`, so it is embedded as `Int`.
  * A `drawing.Color` is identified by the hex string it was built from.
  * The renderer (`chart.Renderer`) is embedded as a trace of operations
    (`ROp`): each call the chart code makes on the renderer appends one
    operation.  Text measurement is the only renderer call whose result
    flows back into the chart code; it is supplied by an environment
    function `measure : String → Int × Int` returning (width, height),
    and every measurement also appends a `measureText` trace entry.
  * Font handles, font sizes and the style plumbing of the external
    go-chart package (`Style.GetFont`, `GetFontSize`,
    `GetTextOptions().WriteToRenderer`) carry no information any claim
    depends on; they are embedded as argument-free marker operations.
  * Go panics (integer division by zero, index out of range) are
    embedded as `Option`: `none` marks a run-time fault.
  * Fallible external collaborators (`chart.GetDefaultFont`, the
    renderer provider `rp`, `Renderer.Save`) are embedded as success
    flags in the environment; when one fails, `Render` propagates the
    corresponding error, exactly as the Go code returns `err`.
-/

/-- A color of the external go-chart drawing package, identified by the
hex string passed to `drawing.ColorFromHex`. -/
abbrev Color := String

/-- Embeds `daysPerWeek = 7`. -/
def daysPerWeek : Int := 7

/-- Embeds `activityChartDefaultColors`: the five default swatches. -/
def activityChartDefaultColors : List Color :=
  ["ebedf0", "c6e48b", "7bc96f", "239a3b", "196127"]

/-- Embeds `activityChartDayLabels`. -/
def activityChartDayLabels : List String :=
  ["Mon", "", "Wed", "", "Fri", "", "Sun"]

/-- Embeds `activityChartMonthLabels`. -/
def activityChartMonthLabels : List String :=
  ["Jan", "Feb", "Mar", "Apr", "May", "Jun", "Jul", "Aug", "Sep", "Oct", "Nov", "Dec"]

/-- Default chart width of the external go-chart package
(`chart.DefaultChartWidth`). -/
def DefaultChartWidth : Int := 1024

/-- Default chart height of the external go-chart package
(`chart.DefaultChartHeight`). -/
def DefaultChartHeight : Int := 400

/-- Default DPI of the external go-chart package (`chart.DefaultDPI`,
92.0 as a float). -/
def DefaultDPI : Int := 92

/-- Default top padding for the title of the external go-chart package
(`chart.DefaultTitleTop`). -/
def DefaultTitleTop : Int := 10

/-- Fill color produced by the external default color palette for the
chart background; opaque to the chart code, so only its identity
matters here. -/
def paletteBackgroundFill : Color := "palette-background-fill"

/-- Stroke color produced by the external default color palette for the
chart background. -/
def paletteBackgroundStroke : Color := "palette-background-stroke"

/-- Embeds the `ActivityChart` struct.  Field defaults are the Go zero
values of the corresponding fields.  `TitleStyleShow` embeds
`TitleStyle.Show`, `TitleStylePaddingTop` embeds `TitleStyle.Padding.Top`,
`XAxisShow` embeds `XAxis.Show` and `YAxisShow` embeds `YAxis.Show`; the
remaining style fields carry no data any embedded computation reads.
`Font` only matters through being set or not, so it is `Option Unit`. -/
structure ActivityChart where
  Title : String := ""
  TitleStyleShow : Bool := false
  TitleStylePaddingTop : Int := 0
  Width : Int := 0
  Height : Int := 0
  DPI : Int := 0
  DotSize : Int := 0
  DotSpacing : Int := 0
  Font : Option Unit := none
  XAxisShow : Bool := false
  YAxisShow : Bool := false
  Days : List Int := []
  CurrentDay : Int := 0
  LeftToRight : Bool := false

/-- Embeds `GetWidth`. -/
def ActivityChart.GetWidth (ac : ActivityChart) : Int :=
  if ac.Width = 0 then DefaultChartWidth else ac.Width

/-- Embeds `GetHeight`. -/
def ActivityChart.GetHeight (ac : ActivityChart) : Int :=
  if ac.Height = 0 then DefaultChartHeight else ac.Height

/-- Embeds `GetDPI`. -/
def ActivityChart.GetDPI (ac : ActivityChart) : Int :=
  if ac.DPI = 0 then DefaultDPI else ac.DPI

/-- Embeds `GetDotSize`. -/
def ActivityChart.GetDotSize (ac : ActivityChart) : Int :=
  if ac.DotSize = 0 then 16 else ac.DotSize

/-- Embeds `GetDotSpacing`. -/
def ActivityChart.GetDotSpacing (ac : ActivityChart) : Int :=
  if ac.DotSpacing = 0 then 2 else ac.DotSpacing

/-- Embeds `chart.Box` as used for drawing rectangles. -/
structure Box where
  Left : Int := 0
  Top : Int := 0
  Right : Int := 0
  Bottom : Int := 0
deriving DecidableEq, Repr

/-- One renderer operation.  `setFont`, `setFontSize`, `setFontColor`
and `writeTextOptions` are markers for the corresponding font/style
renderer calls (their arguments are external style data no claim
reads).  `drawBox` records `chart.Draw.Box` with the fill and stroke
colors of the style; a color of `none` marks a computation that
panicked in Go (the draw call would never be reached). -/
inductive ROp where
  | setDPI (v : Int)
  | setFont
  | setFontSize
  | setFontColor
  | writeTextOptions
  | measureText (s : String)
  | drawBox (b : Box) (fill : Option Color) (stroke : Option Color)
  | text (s : String) (x : Int) (y : Int)
deriving DecidableEq, Repr

/-- The layout fields of `ActivityChart` filled in by `layout()`. -/
structure LayoutResult where
  titleX : Int
  titleY : Int
  chartX : Int
  chartY : Int
  chartWidth : Int
  chartHeight : Int
  numWeeks : Int
  maxValue : Int
deriving DecidableEq, Repr

/-- Embeds `getChartAreaDim`. -/
def ActivityChart.getChartAreaDim (ac : ActivityChart) (numDots : Int) : Int :=
  numDots * ac.GetDotSize + (numDots - 1) * ac.GetDotSpacing

/-- Embeds `layout()`: fills the layout fields.  `measure` stands for
`r.MeasureText`; `titleBox.Width()` and `titleBox.Height()` are its two
components.  `TitleStyle.Padding.GetTop(chart.DefaultTitleTop)` returns
the configured padding when set and the default otherwise. -/
def ActivityChart.layout (ac : ActivityChart) (measure : String → Int × Int) :
    LayoutResult :=
  let titleBox := measure ac.Title
  let titleX := Int.tdiv (ac.GetWidth - titleBox.1) 2
  let titleY :=
    (if ac.TitleStylePaddingTop = 0 then DefaultTitleTop else ac.TitleStylePaddingTop) +
      titleBox.2
  let numWeeks :=
    Int.tdiv ((ac.Days.length : Int) + ac.CurrentDay + daysPerWeek - 1) daysPerWeek
  let chartWidth := ac.getChartAreaDim numWeeks
  let chartHeight := ac.getChartAreaDim daysPerWeek
  let chartX := Int.tdiv (ac.GetWidth - chartWidth) 2
  let chartY := Int.tdiv (ac.GetHeight - titleY - chartHeight) 2
  let maxValue := ac.Days.foldl (fun m v => if v > m then v else m) (-1)
  { titleX := titleX, titleY := titleY, chartX := chartX, chartY := chartY,
    chartWidth := chartWidth, chartHeight := chartHeight,
    numWeeks := numWeeks, maxValue := maxValue }

/-- Renderer calls issued while `layout()` runs: it sets the title font
and size and measures the title. -/
def ActivityChart.layoutOps (ac : ActivityChart) : List ROp :=
  [ROp.setFont, ROp.setFontSize, ROp.measureText ac.Title]

/-- Embeds the swatch-index computation of `getDotColor`: `some i`
means the code indexes `activityChartDefaultColors[i]`; `none` means
the Go expression `(value-1)*numColors/maxValue` divides by zero and
panics. -/
def dotColorIndex (maxValue value : Int) : Option Int :=
  if value = 0 then
    some 0
  else if maxValue = 0 then
    none
  else
    let numColors : Int := (activityChartDefaultColors.length : Int) - 1
    some (Int.tdiv ((value - 1) * numColors) maxValue + 1)

/-- Embeds `getDotColor`: the swatch the computed index selects, or
`none` when the Go code would panic (division by zero, or an index
outside the swatch list). -/
def getDotColor (maxValue value : Int) : Option Color :=
  (dotColorIndex maxValue value).bind fun i =>
    if 0 ≤ i then activityChartDefaultColors.get? i.toNat else none

/-- Embeds the cell computation of `drawDots`: for day index `i`, the
(column, row) pair, after the right-to-left mirror when `ltr` is
false. -/
def dotCell (ltr : Bool) (currentDay numWeeks : Int) (i : Nat) : Int × Int :=
  let offset : Int := (i : Int) + currentDay
  let week := Int.tdiv offset daysPerWeek
  let day := Int.tmod offset daysPerWeek
  let week := if ltr then week else numWeeks - 1 - week
  (week, day)

/-- Embeds the pixel box `drawDots` computes for day index `i`. -/
def ActivityChart.dotBox (ac : ActivityChart) (L : LayoutResult) (i : Nat) : Box :=
  let size := ac.GetDotSize
  let spacing := ac.GetDotSpacing
  let cell := dotCell ac.LeftToRight ac.CurrentDay L.numWeeks i
  let x := L.chartX + cell.1 * (size + spacing)
  let y := L.chartY + cell.2 * (size + spacing)
  { Left := x, Top := y, Right := x + size, Bottom := y + size }

/-- Embeds `drawDots`: one `Draw.Box` per day, in series order, with
fill and stroke both `getDotColor(value)` (see `getDotStyle`). -/
def ActivityChart.drawDotsOps (ac : ActivityChart) (L : LayoutResult) : List ROp :=
  ac.Days.enum.map fun p =>
    ROp.drawBox (ac.dotBox L p.1) (getDotColor L.maxValue p.2) (getDotColor L.maxValue p.2)

/-- Embeds `drawBackground`: one `Draw.Box` over the whole canvas with
the default background style. -/
def ActivityChart.drawBackgroundOps (ac : ActivityChart) : List ROp :=
  [ROp.drawBox { Left := 0, Top := 0, Right := ac.GetWidth, Bottom := ac.GetHeight }
    (some paletteBackgroundFill) (some paletteBackgroundStroke)]

/-- Embeds `drawTitle`: when `TitleStyle.Show` is set, configure the
font and draw the title at the anchor `layout()` computed. -/
def ActivityChart.drawTitleOps (ac : ActivityChart) (L : LayoutResult) : List ROp :=
  if ac.TitleStyleShow then
    [ROp.setFont, ROp.setFontColor, ROp.setFontSize, ROp.text ac.Title L.titleX L.titleY]
  else
    []

/-- Embeds the gap computation of `drawXAxis`:
`labelGap := (width - totalLabelWidth) / (n - 1)` with
`n = len(activityChartMonthLabels)`. -/
def xAxisLabelGap (width totalLabelWidth : Int) : Int :=
  Int.tdiv (width - totalLabelWidth) ((activityChartMonthLabels.length : Int) - 1)

/-- Embeds the drawing loop of `drawXAxis`: each label is drawn at the
running x position, which then advances by the label width plus the
gap. -/
def xAxisTextOps : List (String × Int) → Int → Int → Int → List ROp
  | [], _, _, _ => []
  | (s, w) :: rest, gap, x, y => ROp.text s x y :: xAxisTextOps rest gap (x + w + gap) y

/-- Embeds `drawXAxis`: nothing when `XAxis.Show` is unset; otherwise
write the text style, measure the twelve month labels, and draw them
from the chart's left edge with the computed gap. -/
def ActivityChart.drawXAxisOps (ac : ActivityChart) (L : LayoutResult)
    (measure : String → Int × Int) : List ROp :=
  if !ac.XAxisShow then
    []
  else
    let dotSize := ac.GetDotSize
    let dotSpacing := ac.GetDotSpacing
    let width := dotSize * L.numWeeks + dotSpacing * (L.numWeeks - 1)
    let widths := activityChartMonthLabels.map fun s => (measure s).1
    let totalLabelWidth := widths.sum
    let labelGap := xAxisLabelGap width totalLabelWidth
    ROp.writeTextOptions ::
      (activityChartMonthLabels.map ROp.measureText ++
        xAxisTextOps (activityChartMonthLabels.zip widths) labelGap L.chartX (L.chartY - 10))

/-- Embeds `drawYAxis`: nothing when `YAxis.Show` is unset; otherwise
write the text style, measure the seven day labels, and draw the
non-empty ones left of the chart, one per row. -/
def ActivityChart.drawYAxisOps (ac : ActivityChart) (L : LayoutResult)
    (measure : String → Int × Int) : List ROp :=
  if !ac.YAxisShow then
    []
  else
    let dotSize := ac.GetDotSize
    let dotSpacing := ac.GetDotSpacing
    let boxes := activityChartDayLabels.map measure
    let maxWidth := (boxes.map Prod.fst).foldl max 0
    ROp.writeTextOptions ::
      (activityChartDayLabels.map ROp.measureText ++
        (activityChartDayLabels.zip boxes).enum.filterMap fun p =>
          if p.2.1.length = 0 then
            none
          else
            some (ROp.text p.2.1 (L.chartX - maxWidth - 5)
              (L.chartY + (dotSize + dotSpacing) * (p.1 : Int) + p.2.2.2)))

/-- The debug title `Render` installs:
`fmt.Sprintf("%d x %d @ %d dpi", GetWidth(), GetHeight(), int(GetDPI()))`. -/
def ActivityChart.debugTitle (ac : ActivityChart) : String :=
  toString ac.GetWidth ++ " x " ++ toString ac.GetHeight ++ " @ " ++
    toString ac.GetDPI ++ " dpi"

/-- The distinct failure exits of `Render`, one per `return err` site:
the two validation messages (both invalid input), a
`chart.GetDefaultFont` failure, a renderer-provider failure, and a
`Save` failure. -/
inductive RenderError where
  | invalidInput
  | fontLoadFailed
  | rendererCreateFailed
  | encodeFailed
deriving DecidableEq, Repr

/-- Environment of one `Render` call: the renderer's text measurement,
and the success of the three fallible collaborators (default-font
loading, renderer creation, `Save`). -/
structure RenderEnv where
  measure : String → Int × Int
  defaultFontOk : Bool := true
  rendererOk : Bool := true
  saveOk : Bool := true

/-- The renderer operations the drawing phase of `Render` issues: set
the DPI, then (with the debug title installed and the title forced
visible) lay out, draw the background, the title, the dots and both
axes. -/
def ActivityChart.renderOps (ac : ActivityChart) (env : RenderEnv) : List ROp :=
  let ac2 : ActivityChart := { ac with Title := ac.debugTitle, TitleStyleShow := true }
  let L := ac2.layout env.measure
  ROp.setDPI ac2.GetDPI ::
    (ac2.layoutOps ++
      (ac2.drawBackgroundOps ++
        (ac2.drawTitleOps L ++
          (ac2.drawDotsOps L ++
            (ac2.drawXAxisOps L env.measure ++ ac2.drawYAxisOps L env.measure)))))

/-- Embeds `Render`: validate, load the default font if needed, create
the renderer, then run the drawing phase (`renderOps`) and save.  The
result pairs the returned error (or success) with the trace of
renderer operations issued. -/
def ActivityChart.Render (ac : ActivityChart) (env : RenderEnv) :
    Except RenderError Unit × List ROp :=
  if ac.Days.length = 0 then
    (Except.error RenderError.invalidInput, [])
  else if ac.CurrentDay < 0 || daysPerWeek ≤ ac.CurrentDay then
    (Except.error RenderError.invalidInput, [])
  else if ac.Font = none && !env.defaultFontOk then
    (Except.error RenderError.fontLoadFailed, [])
  else if !env.rendererOk then
    (Except.error RenderError.rendererCreateFailed, [])
  else if env.saveOk then
    (Except.ok (), ac.renderOps env)
  else
    (Except.error RenderError.encodeFailed, ac.renderOps env)

/-- A measurement function that reports every string as 0 by 0; used by
concrete witnesses. -/
def measure0 : String → Int × Int := fun _ => (0, 0)

/-- Environment with all collaborators succeeding. -/
def envOk : RenderEnv := { measure := measure0 }

/-- Environment whose renderer provider fails. -/
def envNoRenderer : RenderEnv := { measure := measure0, rendererOk := false }

/-- A small valid chart: the spec's scenario series [3, 0, 5]. -/
def acEx : ActivityChart := { Days := [3, 0, 5] }

/-- A chart whose `CurrentDay` is out of range. -/
def acBadDay : ActivityChart := { Days := [1], CurrentDay := 7 }

/-- An eight-day all-zero chart laid out right-to-left (two week
columns). -/
def acMirror : ActivityChart := { Days := List.replicate 8 0, LeftToRight := false }

/-- A valid chart used by witnesses that need `leftToRight = true`. -/
def acLtr : ActivityChart := { Days := [3, 0, 5], CurrentDay := 3, LeftToRight := true }

/-! Helper lemmas shared by several claim proofs. -/

/-- The maximum-scan of `layout()` started at any accumulator returns
the accumulator when every series value is zero and the accumulator is
at least zero. -/
theorem foldl_max_allzero_acc (days : List Int) (a : Int) (ha : 0 ≤ a)
    (hz : ∀ v ∈ days, v = 0) :
    days.foldl (fun m v => if v > m then v else m) a = a := by
  induction days generalizing a with
  | nil => rfl
  | cons d rest ih =>
    have hd : d = 0 := hz d (List.mem_cons_self _ _)
    have hr : ∀ v ∈ rest, v = 0 := fun v hv => hz v (List.mem_cons_of_mem _ hv)
    have hnot : ¬ d > a := by omega
    simp only [List.foldl, if_neg hnot]
    exact ih a ha hr

/-- The maximum-scan of `layout()` (accumulator starting at -1) returns
0 on a non-empty all-zero series. -/
theorem foldl_max_allzero (days : List Int) (hne : days ≠ [])
    (hz : ∀ v ∈ days, v = 0) :
    days.foldl (fun m v => if v > m then v else m) (-1) = 0 := by
  cases days with
  | nil => exact absurd rfl hne
  | cons d rest =>
    have hd : d = 0 := hz d (List.mem_cons_self _ _)
    have hr : ∀ v ∈ rest, v = 0 := fun v hv => hz v (List.mem_cons_of_mem _ hv)
    have hgt : d > (-1 : Int) := by omega
    simp only [List.foldl, if_pos hgt, hd]
    exact foldl_max_allzero_acc rest 0 le_rfl hr

/-- Euclidean division by 7 rounded up, as a rational ceiling. -/
theorem ediv_seven_eq_ceil (a : Int) : (a + 6) / 7 = ⌈((a : ℚ)) / 7⌉ := by
  symm
  rw [Int.ceil_eq_iff]
  constructor
  · rw [lt_div_iff₀ (by norm_num : (0 : ℚ) < 7)]
    have h : ((a + 6) / 7 - 1) * 7 < a := by omega
    exact_mod_cast h
  · rw [div_le_iff₀ (by norm_num : (0 : ℚ) < 7)]
    have h : a ≤ ((a + 6) / 7) * 7 := by omega
    exact_mod_cast h

/-! Claim theorems. -/

/-- C1: for every value v and series maximum m with m > 0 and
0 ≤ v ≤ m, the dot color function returns swatch 0 when v = 0, and
when v > 0 the swatch at index floor((v - 1) * (numSwatches - 1) / m)
+ 1, which always lies within [1, numSwatches - 1], where numSwatches
is the length of the swatch list. -/
theorem dotColorIndex_spec (m v : Int) (hm : 0 < m) (h0 : 0 ≤ v) (hvm : v ≤ m) :
    (v = 0 → getDotColor m v = activityChartDefaultColors.get? 0) ∧
    (0 < v → ∃ i : Int,
      dotColorIndex m v = some i ∧
      i = (v - 1) * ((activityChartDefaultColors.length : Int) - 1) / m + 1 ∧
      1 ≤ i ∧ i ≤ (activityChartDefaultColors.length : Int) - 1 ∧
      getDotColor m v = activityChartDefaultColors.get? i.toNat) := by
  constructor
  · intro hv0
    subst hv0
    rfl
  · intro hvpos
    have hvne : v ≠ 0 := by omega
    have hmne : m ≠ 0 := by omega
    have hN : (activityChartDefaultColors.length : Int) - 1 = 4 := by
      simp [activityChartDefaultColors]
    have hnum : 0 ≤ (v - 1) * 4 := by
      have h1 : 0 ≤ v - 1 := by omega
      exact mul_nonneg h1 (by norm_num)
    have htd : Int.tdiv ((v - 1) * 4) m = (v - 1) * 4 / m :=
      Int.tdiv_eq_ediv hnum (by omega)
    have hlow : 0 ≤ (v - 1) * 4 / m := Int.ediv_nonneg hnum (by omega)
    have hup : (v - 1) * 4 / m < 4 := by
      rw [Int.ediv_lt_iff_lt_mul hm]
      omega
    have hidx : dotColorIndex m v = some ((v - 1) * 4 / m + 1) := by
      simp only [dotColorIndex, if_neg hvne, if_neg hmne]
      rw [hN, htd]
    refine ⟨(v - 1) * 4 / m + 1, hidx, by rw [hN], by omega, by omega, ?_⟩
    rw [getDotColor, hidx]
    simp only [Option.some_bind]
    rw [if_pos (by omega : (0 : Int) ≤ (v - 1) * 4 / m + 1)]

/-- C4: for every day index i, fixed currentDay and numWeeks, the
column assigned when leftToRight is false equals numWeeks - 1 minus
the column assigned when leftToRight is true, and the row is the same
for both values of leftToRight. -/
theorem dotCell_mirror (d n : Int) (i : Nat) :
    (dotCell false d n i).1 = n - 1 - (dotCell true d n i).1 ∧
    (dotCell false d n i).2 = (dotCell true d n i).2 := by
  simp [dotCell]

/-- C5 counterexample: with maxValue 1, value 1 (= maxValue) does not
get the last swatch: its bucket index is 1, not numSwatches - 1 = 4. -/
theorem dotColor_max_not_last_counterexample :
    dotColorIndex 1 1 = some 1 ∧
    (1 : Int) ≠ (activityChartDefaultColors.length : Int) - 1 ∧
    getDotColor 1 1 ≠ activityChartDefaultColors.get? (activityChartDefaultColors.length - 1) := by
  refine ⟨by decide, by decide, by decide⟩

/-- C5 amended: for every m > 0, value 0 gets bucket 0; value m gets
the last bucket (numSwatches - 1) whenever m ≥ numSwatches - 1; and
the bucket index is non-decreasing in the value over [0, m]. -/
theorem dotColorIndex_amended (m : Int) (hm : 0 < m) :
    dotColorIndex m 0 = some 0 ∧
    ((activityChartDefaultColors.length : Int) - 1 ≤ m →
      dotColorIndex m m = some ((activityChartDefaultColors.length : Int) - 1)) ∧
    ∀ v1 v2 i1 i2, 0 ≤ v1 → v1 ≤ v2 → v2 ≤ m →
      dotColorIndex m v1 = some i1 → dotColorIndex m v2 = some i2 → i1 ≤ i2 := by
  have hmne : m ≠ 0 := by omega
  have hN : (activityChartDefaultColors.length : Int) - 1 = 4 := by
    simp [activityChartDefaultColors]
  refine ⟨by simp [dotColorIndex], ?_, ?_⟩
  · intro hm4
    rw [hN] at hm4 ⊢
    have hmne0 : m ≠ 0 := hmne
    have hnum : 0 ≤ (m - 1) * 4 := by
      exact mul_nonneg (by omega) (by norm_num)
    have htd : Int.tdiv ((m - 1) * 4) m = (m - 1) * 4 / m :=
      Int.tdiv_eq_ediv hnum (by omega)
    have hsplit : (m - 1) * 4 = (m - 4) + 3 * m := by ring
    have hdiv : (m - 1) * 4 / m = 3 := by
      rw [hsplit, Int.add_mul_ediv_right _ _ hmne0,
        Int.ediv_eq_zero_of_lt (by omega) (by omega)]
      norm_num
    have hmv : m ≠ 0 := hmne
    simp only [dotColorIndex, if_neg hmv, if_neg hmne]
    rw [hN, htd, hdiv]
    norm_num
  · intro v1 v2 i1 i2 h1 h12 h2m hs1 hs2
    by_cases hv1 : v1 = 0
    · subst hv1
      simp [dotColorIndex] at hs1
      subst hs1
      by_cases hv2 : v2 = 0
      · subst hv2
        simp [dotColorIndex] at hs2
        omega
      · simp only [dotColorIndex, if_neg hv2, if_neg hmne, Option.some.injEq] at hs2
        have hnum2 : 0 ≤ (v2 - 1) * ((activityChartDefaultColors.length : Int) - 1) := by
          rw [hN]
          exact mul_nonneg (by omega) (by norm_num)
        have htd2 := Int.tdiv_eq_ediv hnum2 (by omega : (0:Int) ≤ m)
        have hlow2 : 0 ≤ (v2 - 1) * ((activityChartDefaultColors.length : Int) - 1) / m :=
          Int.ediv_nonneg hnum2 (by omega)
        omega
    · have hv2 : v2 ≠ 0 := by omega
      simp only [dotColorIndex, if_neg hv1, if_neg hmne, Option.some.injEq] at hs1
      simp only [dotColorIndex, if_neg hv2, if_neg hmne, Option.some.injEq] at hs2
      rw [hN] at hs1 hs2
      have hnum1 : 0 ≤ (v1 - 1) * 4 := mul_nonneg (by omega) (by norm_num)
      have hnum2 : 0 ≤ (v2 - 1) * 4 := mul_nonneg (by omega) (by norm_num)
      have htd1 := Int.tdiv_eq_ediv hnum1 (by omega : (0:Int) ≤ m)
      have htd2 := Int.tdiv_eq_ediv hnum2 (by omega : (0:Int) ≤ m)
      have hmono : (v1 - 1) * 4 / m ≤ (v2 - 1) * 4 / m :=
        Int.ediv_le_ediv hm (mul_le_mul_of_nonneg_right (by omega) (by norm_num))
      omega

/-- C9: the inter-label gap of the month-label pass is the integer
division (chartWidth - sum of widths) / (12 - 1), and the sum of the
12 widths plus 11 such gaps equals the chart width up to the integer
division remainder, which is at most 10. -/
theorem xAxisLabelGap_spec (ws : List Int) (W : Int)
    (hlen : ws.length = activityChartMonthLabels.length) (hW : ws.sum ≤ W) :
    xAxisLabelGap W ws.sum =
      (W - ws.sum) / ((activityChartMonthLabels.length : Int) - 1) ∧
    W - 10 ≤ ws.sum +
      ((activityChartMonthLabels.length : Int) - 1) * xAxisLabelGap W ws.sum ∧
    ws.sum + ((activityChartMonthLabels.length : Int) - 1) * xAxisLabelGap W ws.sum ≤ W := by
  have h11 : (activityChartMonthLabels.length : Int) - 1 = 11 := by
    simp [activityChartMonthLabels]
  have htd : xAxisLabelGap W ws.sum = (W - ws.sum) / 11 := by
    rw [xAxisLabelGap, h11]
    exact Int.tdiv_eq_ediv (by omega) (by norm_num)
  rw [h11, htd]
  omega

/-- C2: on a non-empty all-zero series the observed maximum computed by
layout is 0, every value's color is swatch 0, and every cell of the dot
grid is drawn with swatch 0; the bucket division is never evaluated, so
no division-by-zero fault occurs (every color is `some`). -/
theorem drawDots_allzero (ac : ActivityChart) (measure : String → Int × Int)
    (hne : ac.Days ≠ []) (hz : ∀ v ∈ ac.Days, v = 0) :
    (ac.layout measure).maxValue = 0 ∧
    (∀ v ∈ ac.Days, getDotColor (ac.layout measure).maxValue v =
      activityChartDefaultColors.get? 0) ∧
    ∀ op ∈ ac.drawDotsOps (ac.layout measure),
      ∃ b, op = ROp.drawBox b (activityChartDefaultColors.get? 0)
        (activityChartDefaultColors.get? 0) := by
  have hmax : (ac.layout measure).maxValue = 0 := by
    simp only [ActivityChart.layout]
    exact foldl_max_allzero ac.Days hne hz
  refine ⟨hmax, ?_, ?_⟩
  · intro v hv
    rw [hmax, hz v hv]
    rfl
  · intro op hop
    rcases List.mem_map.mp hop with ⟨p, hp, hfp⟩
    obtain ⟨i, v⟩ := p
    obtain ⟨hlt, hvx⟩ := List.mem_enum hp
    have hvmem : v ∈ ac.Days := by
      rw [hvx]
      exact List.getElem_mem hlt
    refine ⟨ac.dotBox (ac.layout measure) i, ?_⟩
    rw [← hfp]
    simp only
    rw [hmax, hz v hvmem]
    rfl

/-- C3: for a non-empty series of length L and currentDay d in [0,6],
layout computes numWeeks = ceil((L + d) / 7). -/
theorem layout_numWeeks_ceil (ac : ActivityChart) (measure : String → Int × Int)
    (hne : ac.Days ≠ []) (h0 : 0 ≤ ac.CurrentDay) (h7 : ac.CurrentDay < 7) :
    (ac.layout measure).numWeeks =
      ⌈((((ac.Days.length : Int) + ac.CurrentDay : Int)) : ℚ) / 7⌉ := by
  have hnn : 0 ≤ (ac.Days.length : Int) + ac.CurrentDay + 7 - 1 := by
    have hc := Int.natCast_nonneg ac.Days.length
    omega
  have htd : Int.tdiv ((ac.Days.length : Int) + ac.CurrentDay + daysPerWeek - 1) daysPerWeek
      = ((ac.Days.length : Int) + ac.CurrentDay + 6) / 7 := by
    show Int.tdiv ((ac.Days.length : Int) + ac.CurrentDay + 7 - 1) 7 = _
    rw [Int.tdiv_eq_ediv hnn (by norm_num)]
    congr 1
    ring
  simp only [ActivityChart.layout]
  rw [htd, ediv_seven_eq_ceil]

/-- C6: an empty series or a currentDay outside [0,6] makes Render fail
with the invalid-input error before any renderer operation is issued:
the returned trace is empty. -/
theorem render_invalid_input (ac : ActivityChart) (env : RenderEnv)
    (h : ac.Days.length = 0 ∨ ac.CurrentDay < 0 ∨ 7 ≤ ac.CurrentDay) :
    ac.Render env = (Except.error RenderError.invalidInput, []) := by
  unfold ActivityChart.Render
  by_cases h1 : ac.Days.length = 0
  · rw [if_pos h1]
  · rw [if_neg h1]
    have h2 : (ac.CurrentDay < 0 || daysPerWeek ≤ ac.CurrentDay) = true := by
      simp only [Bool.or_eq_true, decide_eq_true_eq, daysPerWeek]
      omega
    rw [if_pos h2]

/-- C7 counterexample: with a valid chart but a failing renderer
provider, Render returns the propagated provider error, which is
neither the invalid-input nor the encode error. -/
theorem render_other_error_counterexample :
    (acEx.Render envNoRenderer).1 = Except.error RenderError.rendererCreateFailed ∧
    RenderError.rendererCreateFailed ≠ RenderError.invalidInput ∧
    RenderError.rendererCreateFailed ≠ RenderError.encodeFailed := by
  refine ⟨rfl, by decide, by decide⟩

/-- C7 amended: when the default font loads and the renderer provider
succeeds, every call of Render either succeeds with the full trace or
fails with exactly the invalid-input or the encode (save) error; the
remaining error exits only propagate failures of those two external
collaborators. -/
theorem render_error_kinds (ac : ActivityChart) (env : RenderEnv)
    (hfont : env.defaultFontOk = true) (hrp : env.rendererOk = true) :
    ac.Render env = (Except.ok (), ac.renderOps env) ∨
    (ac.Render env).1 = Except.error RenderError.invalidInput ∨
    (ac.Render env).1 = Except.error RenderError.encodeFailed := by
  unfold ActivityChart.Render
  by_cases h1 : ac.Days.length = 0
  · right; left; rw [if_pos h1]
  · rw [if_neg h1]
    by_cases h2 : (ac.CurrentDay < 0 || daysPerWeek ≤ ac.CurrentDay) = true
    · right; left; rw [if_pos h2]
    · rw [if_neg h2]
      rw [if_neg (show ¬ ((ac.Font = none && !env.defaultFontOk) = true) by simp [hfont])]
      rw [if_neg (show ¬ ((!env.rendererOk) = true) by simp [hrp])]
      by_cases h5 : env.saveOk = true
      · left; rw [if_pos h5]
      · right; right; rw [if_neg h5]

/-- C8 counterexample: with leftToRight false (eight-day all-zero
series, two week columns), the cell of day 0 is not drawn at column
offset div 7: its box starts one column stride to the right. -/
theorem dotBox_unmirrored_counterexample :
    (acMirror.dotBox (acMirror.layout measure0) 0).Left ≠
      (acMirror.layout measure0).chartX +
        (((0 : Nat) : Int) + acMirror.CurrentDay) / 7 *
          (acMirror.GetDotSize + acMirror.GetDotSpacing) := by
  decide

/-- C8 amended: the cell of day i uses offset = i + currentDay, row =
offset mod 7, and column offset div 7 when leftToRight is true,
mirrored to numWeeks - 1 - offset div 7 when leftToRight is false; its
box starts at chartX + col*(dotSize+dotSpacing),
chartY + row*(dotSize+dotSpacing) and extends dotSize in each
direction. -/
theorem dotBox_spec (ac : ActivityChart) (L : LayoutResult) (i : Nat)
    (h0 : 0 ≤ ac.CurrentDay) :
    (ac.dotBox L i).Left = L.chartX +
      (if ac.LeftToRight then ((i : Int) + ac.CurrentDay) / 7
        else L.numWeeks - 1 - ((i : Int) + ac.CurrentDay) / 7) *
        (ac.GetDotSize + ac.GetDotSpacing) ∧
    (ac.dotBox L i).Top = L.chartY +
      ((i : Int) + ac.CurrentDay) % 7 * (ac.GetDotSize + ac.GetDotSpacing) ∧
    (ac.dotBox L i).Right = (ac.dotBox L i).Left + ac.GetDotSize ∧
    (ac.dotBox L i).Bottom = (ac.dotBox L i).Top + ac.GetDotSize := by
  have hoff : 0 ≤ (i : Int) + ac.CurrentDay := by
    have hc := Int.natCast_nonneg i
    omega
  have htd : Int.tdiv ((i : Int) + ac.CurrentDay) daysPerWeek =
      ((i : Int) + ac.CurrentDay) / 7 :=
    Int.tdiv_eq_ediv hoff (by decide)
  have htm : Int.tmod ((i : Int) + ac.CurrentDay) daysPerWeek =
      ((i : Int) + ac.CurrentDay) % 7 :=
    Int.tmod_eq_emod hoff (by decide)
  cases hL : ac.LeftToRight <;>
    simp [ActivityChart.dotBox, dotCell, hL, htd, htm]

/-- With valid inputs and healthy collaborators the trace Render
returns is renderOps, whether or not the save step succeeds. -/
theorem render_trace (ac : ActivityChart) (env : RenderEnv)
    (hne : ¬ ac.Days.length = 0) (h0 : 0 ≤ ac.CurrentDay) (h7 : ac.CurrentDay < 7)
    (hfont : env.defaultFontOk = true) (hrp : env.rendererOk = true) :
    (ac.Render env).2 = ac.renderOps env := by
  unfold ActivityChart.Render
  rw [if_neg hne]
  rw [if_neg (show ¬ ((ac.CurrentDay < 0 || daysPerWeek ≤ ac.CurrentDay) = true) by
    simp only [Bool.or_eq_true, decide_eq_true_eq, daysPerWeek]
    omega)]
  rw [if_neg (show ¬ ((ac.Font = none && !env.defaultFontOk) = true) by simp [hfont])]
  rw [if_neg (show ¬ ((!env.rendererOk) = true) by simp [hrp])]
  by_cases h5 : env.saveOk = true
  · rw [if_pos h5]
  · rw [if_neg h5]

/-- C10: for inputs that pass validation, Render is invariant under the
caller-supplied Title and TitleStyle.Show (they are unconditionally
replaced by the debug string and forced visible), the debug title is
the string measured during layout, and the debug title is drawn. -/
theorem render_title_debug (ac : ActivityChart) (env : RenderEnv) (s : String) (b : Bool)
    (hne : ¬ ac.Days.length = 0) (h0 : 0 ≤ ac.CurrentDay) (h7 : ac.CurrentDay < 7)
    (hfont : env.defaultFontOk = true) (hrp : env.rendererOk = true) :
    ActivityChart.Render { ac with Title := s, TitleStyleShow := b } env = ac.Render env ∧
    ROp.measureText ac.debugTitle ∈ (ac.Render env).2 ∧
    ∃ x y, ROp.text ac.debugTitle x y ∈ (ac.Render env).2 := by
  have hinv : ActivityChart.Render { ac with Title := s, TitleStyleShow := b } env
      = ac.Render env := by
    cases ac
    rfl
  have htr := render_trace ac env hne h0 h7 hfont hrp
  refine ⟨hinv, ?_, ?_⟩
  · rw [htr]
    simp [ActivityChart.renderOps, ActivityChart.layoutOps]
  · refine ⟨(({ ac with Title := ac.debugTitle, TitleStyleShow := true } :
        ActivityChart).layout env.measure).titleX,
      (({ ac with Title := ac.debugTitle, TitleStyleShow := true } :
        ActivityChart).layout env.measure).titleY, ?_⟩
    rw [htr]
    simp [ActivityChart.renderOps, ActivityChart.drawTitleOps]

/-- C1 witness: maxValue 5, value 3. -/
theorem dotColorIndex_spec_witness :
    ((3 : Int) = 0 → getDotColor 5 3 = activityChartDefaultColors.get? 0) ∧
    ((0 : Int) < 3 → ∃ i : Int,
      dotColorIndex 5 3 = some i ∧
      i = ((3 : Int) - 1) * ((activityChartDefaultColors.length : Int) - 1) / 5 + 1 ∧
      1 ≤ i ∧ i ≤ (activityChartDefaultColors.length : Int) - 1 ∧
      getDotColor 5 3 = activityChartDefaultColors.get? i.toNat) :=
  dotColorIndex_spec 5 3 (by norm_num) (by norm_num) (by norm_num)

/-- C2 witness: the eight-day all-zero chart. -/
theorem drawDots_allzero_witness :
    (acMirror.layout measure0).maxValue = 0 ∧
    (∀ v ∈ acMirror.Days, getDotColor (acMirror.layout measure0).maxValue v =
      activityChartDefaultColors.get? 0) ∧
    ∀ op ∈ acMirror.drawDotsOps (acMirror.layout measure0),
      ∃ b, op = ROp.drawBox b (activityChartDefaultColors.get? 0)
        (activityChartDefaultColors.get? 0) :=
  drawDots_allzero acMirror measure0 (by decide) (by decide)

/-- C3 witness: series of length 3 with currentDay 3 (numWeeks =
ceil(6/7) = 1). -/
theorem layout_numWeeks_ceil_witness :
    (acLtr.layout measure0).numWeeks =
      ⌈((((acLtr.Days.length : Int) + acLtr.CurrentDay : Int)) : ℚ) / 7⌉ :=
  layout_numWeeks_ceil acLtr measure0 (by decide) (by decide) (by decide)

/-- C5 amended witness: maxValue 5. -/
theorem dotColorIndex_amended_witness :
    dotColorIndex 5 0 = some 0 ∧
    ((activityChartDefaultColors.length : Int) - 1 ≤ 5 →
      dotColorIndex 5 5 = some ((activityChartDefaultColors.length : Int) - 1)) ∧
    ∀ v1 v2 i1 i2, 0 ≤ v1 → v1 ≤ v2 → v2 ≤ 5 →
      dotColorIndex 5 v1 = some i1 → dotColorIndex 5 v2 = some i2 → i1 ≤ i2 :=
  dotColorIndex_amended 5 (by norm_num)

/-- C6 witness: a chart whose currentDay is 7. -/
theorem render_invalid_input_witness :
    acBadDay.Render envOk = (Except.error RenderError.invalidInput, []) :=
  render_invalid_input acBadDay envOk (by decide)

/-- C7 amended witness: the valid example chart with all collaborators
healthy. -/
theorem render_error_kinds_witness :
    acEx.Render envOk = (Except.ok (), acEx.renderOps envOk) ∨
    (acEx.Render envOk).1 = Except.error RenderError.invalidInput ∨
    (acEx.Render envOk).1 = Except.error RenderError.encodeFailed :=
  render_error_kinds acEx envOk rfl rfl

/-- C8 amended witness: day 1 of the left-to-right example chart. -/
theorem dotBox_spec_witness :
    (acLtr.dotBox (acLtr.layout measure0) 1).Left = (acLtr.layout measure0).chartX +
      (if acLtr.LeftToRight then (((1 : Nat) : Int) + acLtr.CurrentDay) / 7
        else (acLtr.layout measure0).numWeeks - 1 -
          (((1 : Nat) : Int) + acLtr.CurrentDay) / 7) *
        (acLtr.GetDotSize + acLtr.GetDotSpacing) ∧
    (acLtr.dotBox (acLtr.layout measure0) 1).Top = (acLtr.layout measure0).chartY +
      (((1 : Nat) : Int) + acLtr.CurrentDay) % 7 * (acLtr.GetDotSize + acLtr.GetDotSpacing) ∧
    (acLtr.dotBox (acLtr.layout measure0) 1).Right =
      (acLtr.dotBox (acLtr.layout measure0) 1).Left + acLtr.GetDotSize ∧
    (acLtr.dotBox (acLtr.layout measure0) 1).Bottom =
      (acLtr.dotBox (acLtr.layout measure0) 1).Top + acLtr.GetDotSize :=
  dotBox_spec acLtr (acLtr.layout measure0) 1 (by decide)

/-- C9 witness: twelve labels of width 10 on a chart 200 wide. -/
theorem xAxisLabelGap_spec_witness :
    xAxisLabelGap 200 (List.replicate 12 (10 : Int)).sum =
      (200 - (List.replicate 12 (10 : Int)).sum) /
        ((activityChartMonthLabels.length : Int) - 1) ∧
    200 - 10 ≤ (List.replicate 12 (10 : Int)).sum +
      ((activityChartMonthLabels.length : Int) - 1) *
        xAxisLabelGap 200 (List.replicate 12 (10 : Int)).sum ∧
    (List.replicate 12 (10 : Int)).sum +
      ((activityChartMonthLabels.length : Int) - 1) *
        xAxisLabelGap 200 (List.replicate 12 (10 : Int)).sum ≤ 200 :=
  xAxisLabelGap_spec (List.replicate 12 (10 : Int)) 200 (by decide) (by decide)

/-- C10 witness: the valid example chart; a caller title and hidden
title style are ignored. -/
theorem render_title_debug_witness :
    ActivityChart.Render { acEx with Title := "ignored", TitleStyleShow := false } envOk
      = acEx.Render envOk ∧
    ROp.measureText acEx.debugTitle ∈ (acEx.Render envOk).2 ∧
    ∃ x y, ROp.text acEx.debugTitle x y ∈ (acEx.Render envOk).2 :=
  render_title_debug acEx envOk "ignored" false (by decide) (by decide) (by decide) rfl rfl
